import Mathlib

/-!
# Verification of the authGenius backend configuration and auth lifecycle

This file embeds `src/config/index.ts` of the `authGenius-backend`
repository, together with the authentication-lifecycle components that the
repository's design document specifies (Secret Hasher, Token Issuer,
Verification/Reset Code Generator, Auth Service), and proves or refutes the
spec's claims about them.

The configuration module reads process environment variables, so an
environment is modelled as a partial map from variable names to string
values.  The `||` defaulting idiom is modelled exactly: `x || d` replaces
both `NaN` and `0` (the falsy numbers) — respectively the empty string
(the only falsy string) — by the default, and `Number(undefined) = NaN`.
JavaScript's `Number(...)` conversion itself works on float64 values and
a large literal grammar, which has no faithful total shallow embedding in
exact arithmetic; the model `stringToNumber` is therefore total but the
theorems about numeric fields invoke it only on the `smallIntLit`
fragment — plain optionally-signed decimal integer literals of at most
fifteen digits — on which the conversion is provably identical to
ECMAScript's: such values are integers below `2^53`, converted exactly
with no rounding or underflow, and contain no whitespace, exponent, hex,
binary, octal or `Infinity` form.
-/

/-- A process environment: a partial map from variable names to values. -/
def Env : Type := String → Option String

/-- Result of JavaScript `Number(...)`: either NaN or a numeric value.
Numeric values are modelled as rationals (the config only ever compares
and stores them). -/
inductive JsNum where
  | nan : JsNum
  | num : Rat → JsNum
deriving DecidableEq

/-- The numeric value of a list of decimal digit characters. -/
def natOfDigits (cs : List Char) : Nat :=
  cs.foldl (fun a c => 10 * a + (c.toNat - 48)) 0

/-- Whether every character of the list is a decimal digit. -/
def allDigits (cs : List Char) : Bool :=
  cs.all fun c => c.isDigit

/-- Parse an unsigned decimal literal (`digits`, `digits.digits`,
`.digits`, `digits.`) as in ECMAScript `StringToNumber`; `none` for
anything else in the modelled fragment. -/
def parseUnsigned (cs : List Char) : Option Rat :=
  match cs.splitOn '.' with
  | [i] =>
      if allDigits i ∧ i ≠ [] then some (natOfDigits i : Rat) else none
  | [i, f] =>
      if allDigits i ∧ allDigits f ∧ (i ≠ [] ∨ f ≠ []) then
        some ((natOfDigits i : Rat) + (natOfDigits f : Rat) / (10 ^ f.length : Rat))
      else none
  | _ => none

/-- Whitespace characters stripped by ECMAScript `StringToNumber`
(modelled fragment: the ASCII ones). -/
def isWs (c : Char) : Bool :=
  c = ' ' ∨ c = '\t' ∨ c = '\n' ∨ c = '\r'

/-- Strip leading and trailing whitespace from a character list. -/
def trimChars (cs : List Char) : List Char :=
  ((cs.dropWhile isWs).reverse.dropWhile isWs).reverse

/-- ECMAScript `StringToNumber` on the modelled fragment: trim
whitespace, the empty string is `0`, an optionally signed decimal literal
is its value, anything else is NaN.  Exponent, hex, binary, octal and
`Infinity` forms, and float64 rounding, are outside the modelled
fragment; every theorem below therefore applies this conversion only to
literals satisfying `smallIntLit`, a sub-fragment on which it agrees
exactly with `Number(...)` (see `smallIntLit`), or to conversion-free
cases (variable absent). -/
def stringToNumber (s : String) : JsNum :=
  match trimChars s.data with
  | [] => .num 0
  | c :: rest =>
      if c = '+' then
        match parseUnsigned rest with
        | some v => .num v
        | none => .nan
      else if c = '-' then
        match parseUnsigned rest with
        | some v => .num (-v)
        | none => .nan
      else
        match parseUnsigned (c :: rest) with
        | some v => .num v
        | none => .nan

/-- Plain optionally-signed decimal integer literals of at most fifteen
digits.  On this fragment ECMAScript `Number(...)` agrees exactly with
the rational model: the value is an integer of magnitude below `10^15 <
2^53`, hence exactly representable in float64 with no rounding or
underflow; no whitespace, exponent, hex, binary, octal or `Infinity`
form is involved; and `x || d` compares the converted value with `0`
exactly in both. -/
def smallIntLit (s : String) : Bool :=
  match s.data with
  | [] => false
  | c :: cs =>
      if c = '-' then
        allDigits cs && !cs.isEmpty && decide (cs.length ≤ 15)
      else
        allDigits (c :: cs) && decide ((c :: cs).length ≤ 15)

/-- The integer value of a literal of the `smallIntLit` fragment. -/
def smallIntVal (s : String) : Int :=
  match s.data with
  | [] => 0
  | c :: cs =>
      if c = '-' then -(natOfDigits cs : Int) else (natOfDigits (c :: cs) : Int)

/-- JavaScript `Number(x)` where `x` is `process.env.K`: `undefined`
converts to NaN, a string by `stringToNumber`. -/
def jsNumber (o : Option String) : JsNum :=
  match o with
  | none => .nan
  | some s => stringToNumber s

/-- The idiom `Number(process.env.K) || d`: NaN and `0` are falsy, any
other number is kept. -/
def numOr (o : Option String) (d : Rat) : Rat :=
  match jsNumber o with
  | .nan => d
  | .num v => if v = 0 then d else v

/-- The idiom `process.env.K || d` on strings: `undefined` and the empty
string are falsy, any other string is kept. -/
def strOr (o : Option String) (d : String) : String :=
  match o with
  | none => d
  | some s => if s = "" then d else s

/-- The `Config` object of `src/config/index.ts`.  Fields that the source
reads with a bare `as string` cast carry `Option String`: the cast is a
compile-time assertion only, and the runtime value is `undefined` when the
variable is absent. -/
structure Config where
  PORT : Rat
  NODE_ENV : String
  MONGO_URI : Option String
  JWT_ACCESS_TOKEN : Option String
  JWT_REFRESH_TOKEN : Option String
  JWT_ACCESS_EXPIRY : String
  JWT_REFRESH_EXPIRY : String
  EMAIL_HOST : Option String
  EMAIL_PORT : Rat
  EMAIL_USER : Option String
  EMAIL_PASS : Option String
  CLIENT_URL : String
  BCRYPT_SALT_ROUND : Rat
  RATE_LIMIT_WINDOW_MS : Rat
  RATE_LIMIT_MAX_REQUESTS : Rat
deriving DecidableEq

/-- Construction of the `Config` object from the process environment,
field for field as in `src/config/index.ts`. -/
def mkConfig (env : Env) : Config where
  PORT := numOr (env "PORT") 3000
  NODE_ENV := strOr (env "NODE_ENV") "development"
  MONGO_URI := env "MONGO_URI"
  JWT_ACCESS_TOKEN := env "JWT_ACCESS_TOKEN"
  JWT_REFRESH_TOKEN := env "JWT_REFRESH_TOKEN"
  JWT_ACCESS_EXPIRY := strOr (env "JWT_ACCESS_EXPIRY") "15m"
  JWT_REFRESH_EXPIRY := strOr (env "JWT_REFRESH_EXPIRY") "7d"
  EMAIL_HOST := env "EMAIL_HOST"
  EMAIL_PORT := numOr (env "EMAIL_PORT") 587
  EMAIL_USER := env "EMAIL_USER"
  EMAIL_PASS := env "EMAIL_PASS"
  CLIENT_URL := strOr (env "CLIENT_URL") "http://localhost:5173"
  BCRYPT_SALT_ROUND := numOr (env "BCRYPT_SALT_ROUND") 12
  RATE_LIMIT_WINDOW_MS := numOr (env "RATE_LIMIT_WINDOW_MS") (15 * 60 * 1000)
  RATE_LIMIT_MAX_REQUESTS := numOr (env "RATE_LIMIT_MAX_REQUESTS") 100

/-- The environment variables the `Config` object reads. -/
def configKeys : List String :=
  ["PORT", "NODE_ENV", "MONGO_URI", "JWT_ACCESS_TOKEN", "JWT_REFRESH_TOKEN",
   "JWT_ACCESS_EXPIRY", "JWT_REFRESH_EXPIRY", "EMAIL_HOST", "EMAIL_PORT",
   "EMAIL_USER", "EMAIL_PASS", "CLIENT_URL", "BCRYPT_SALT_ROUND",
   "RATE_LIMIT_WINDOW_MS", "RATE_LIMIT_MAX_REQUESTS"]

/-- The numeric environment variables and their built-in defaults. -/
def numericKeys : List String :=
  ["PORT", "EMAIL_PORT", "BCRYPT_SALT_ROUND", "RATE_LIMIT_WINDOW_MS",
   "RATE_LIMIT_MAX_REQUESTS"]

/-- The empty environment: no variable set. -/
def emptyEnv : Env := fun _ => none

/-- A single-binding environment. -/
def envOf (k v : String) : Env := fun k' => if k' = k then some v else none

/-- A two-binding environment. -/
def envTwo (k₁ v₁ k₂ v₂ : String) : Env := fun k =>
  if k = k₁ then some v₁ else if k = k₂ then some v₂ else none

/-- A concrete environment setting every numeric variable to a nonzero
plain decimal integer string (a negative one included). -/
def numericEnv : Env := fun k =>
  if k = "PORT" then some "8080"
  else if k = "EMAIL_PORT" then some "2525"
  else if k = "BCRYPT_SALT_ROUND" then some "10"
  else if k = "RATE_LIMIT_WINDOW_MS" then some "-60000"
  else if k = "RATE_LIMIT_MAX_REQUESTS" then some "5" else none

/-- Result of a verification/reset code check (spec §4.3). -/
inductive CheckResult where
  | valid : CheckResult
  | expired : CheckResult
  | mismatch : CheckResult
deriving DecidableEq

/-- Modelled from the spec: the Code Generator operation
`check(storedCode, storedExpiry, suppliedCode, now)` of §4.3 — the
repository holds no implementation under src/.  A check strictly after
the stored expiry is expired; otherwise the supplied code must equal the
stored one. -/
def checkCode (storedCode : String) (storedExpiry : Nat)
    (suppliedCode : String) (now : Nat) : CheckResult :=
  if storedExpiry < now then .expired
  else if suppliedCode = storedCode then .valid
  else .mismatch

/-- A stored password hash, encoding the cost factor, the per-record salt
and a digest of the plaintext mixed with the salt (spec §4.1). -/
structure Hash where
  cost : Nat
  salt : Nat
  digest : Nat
deriving DecidableEq

/-- One-way digest of a plaintext mixed with a salt. -/
def mixDigest (salt : Nat) (plaintext : String) : Nat :=
  plaintext.data.foldl (fun a c => a * 131 + c.toNat + 1) salt

/-- Modelled from the spec: the Secret Hasher of §4.1 — the repository
holds no implementation under src/.  Hashing takes the plaintext and the
per-record random salt (the randomness is supplied by the caller) and
produces a hash encoding cost, salt and digest; empty plaintext is
rejected before hashing. -/
def hashPassword (cost salt : Nat) (plaintext : String) : Option Hash :=
  if plaintext = "" then none
  else some { cost := cost, salt := salt, digest := mixDigest salt plaintext }

/-- Modelled from the spec: the verification operation of the Secret
Hasher (§4.1) — rebuild the digest from the supplied plaintext and the
salt stored in the hash, and compare. -/
def verifyPassword (plaintext : String) (h : Hash) : Bool :=
  mixDigest h.salt plaintext == h.digest

/-- Errors of the Auth Service operations (spec §7). -/
inductive AuthErr where
  | validationError : AuthErr
  | duplicateEmail : AuthErr
  | notFound : AuthErr
  | invalidCredentials : AuthErr
  | notVerified : AuthErr
  | codeExpired : AuthErr
  | codeMismatch : AuthErr
deriving DecidableEq

/-- A stored user record (spec §3): identity, hashed secret, verification
state, optional verification and reset codes with expiry. -/
structure User where
  name : String
  email : String
  passwordHash : Hash
  verified : Bool
  verificationCode : Option (String × Nat)
  resetCode : Option (String × Nat)
deriving DecidableEq

/-- The Credential Store state: the stored user records. -/
structure AuthState where
  users : List User
deriving DecidableEq

/-- Lower-case an ASCII character (emails are unique case-insensitively,
spec §3). -/
def lowerChar (c : Char) : Char :=
  if 'A' ≤ c ∧ c ≤ 'Z' then Char.ofNat (c.toNat + 32) else c

/-- Normalise an email for case-insensitive uniqueness. -/
def normEmail (e : String) : String := ⟨e.data.map lowerChar⟩

/-- Look a user up by email (the store capability of spec §6). -/
def findByEmail (st : AuthState) (email : String) : Option User :=
  st.users.find? fun u => u.email = normEmail email

/-- Update the record stored under an email (the store capability of
spec §6). -/
def updateByEmail (st : AuthState) (email : String) (f : User → User) :
    AuthState :=
  ⟨st.users.map fun u => if u.email = normEmail email then f u else u⟩

/-- Modelled from the spec: `register(name, email, password)` of §4.4 —
the repository holds no implementation under src/.  Fails DuplicateEmail
when the email is taken; otherwise hashes the password, stores the record
unverified with the issued verification code.  The code, its expiry and
the hashing salt come from the Code Generator, clock and Secret Hasher
collaborators and are passed as arguments. -/
def register (st : AuthState) (name email password : String)
    (cost salt : Nat) (code : String) (codeExpiry : Nat) :
    Except AuthErr AuthState :=
  if (findByEmail st email).isSome then .error .duplicateEmail
  else
    match hashPassword cost salt password with
    | none => .error .validationError
    | some h =>
        .ok ⟨{ name := name, email := normEmail email, passwordHash := h,
               verified := false, verificationCode := some (code, codeExpiry),
               resetCode := none } :: st.users⟩

/-- Modelled from the spec: `verifyEmail(email, code)` of §4.4 — the
repository holds no implementation under src/.  Fails NotFound,
CodeExpired or CodeMismatch; on success flips the verified flag and
clears the code (single use).  A record whose code was already cleared
fails CodeMismatch (spec §8). -/
def verifyEmail (st : AuthState) (email code : String) (now : Nat) :
    Except AuthErr AuthState :=
  match findByEmail st email with
  | none => .error .notFound
  | some u =>
      match u.verificationCode with
      | none => .error .codeMismatch
      | some (c, exp) =>
          match checkCode c exp code now with
          | .expired => .error .codeExpired
          | .mismatch => .error .codeMismatch
          | .valid =>
              .ok (updateByEmail st email fun v =>
                { v with verified := true, verificationCode := none })

/-- A signed token (spec §4.2): the claim set binds the user identifier
and an expiry; the signing secret identifies the token class. -/
structure Token where
  userId : String
  expiresAt : Nat
  secret : String
deriving DecidableEq

/-- Modelled from the spec: token issuance of §4.2 — the repository holds
no implementation under src/.  The token embeds the user identifier and
an absolute expiry and is signed with the given class secret. -/
def issueToken (secret userId : String) (now lifetime : Nat) : Token :=
  { userId := userId, expiresAt := now + lifetime, secret := secret }

/-- Modelled from the spec: `login(email, password)` of §4.4 — the
repository holds no implementation under src/.  Unknown email and wrong
password are indistinguishable (both InvalidCredentials); an unverified
account fails NotVerified regardless of credential correctness (spec §8);
on success an access+refresh token pair is issued, each class signed with
its own secret. -/
def login (st : AuthState) (email password : String)
    (accessSecret refreshSecret : String)
    (now accessLife refreshLife : Nat) :
    Except AuthErr (Token × Token) :=
  match findByEmail st email with
  | none => .error .invalidCredentials
  | some u =>
      if !u.verified then .error .notVerified
      else if verifyPassword password u.passwordHash then
        .ok (issueToken accessSecret u.email now accessLife,
             issueToken refreshSecret u.email now refreshLife)
      else .error .invalidCredentials

/-- The success-shaped response body `forgotPassword` always returns. -/
def forgotResponse : String :=
  "If that email is registered, a reset code has been sent"

/-- Outcome of `forgotPassword`: the externally visible response body,
the updated store, and what the email collaborator was asked to send. -/
structure ForgotOutcome where
  response : String
  state : AuthState
  sent : Option (String × String)
deriving DecidableEq

/-- Modelled from the spec: `forgotPassword(email)` of §4.4 — the
repository holds no implementation under src/.  Always responds
success-shaped; stores and sends a reset code only when the account
exists and is verified. -/
def forgotPassword (st : AuthState) (email : String)
    (code : String) (codeExpiry : Nat) : ForgotOutcome :=
  match findByEmail st email with
  | some u =>
      if u.verified then
        { response := forgotResponse
          state := updateByEmail st email fun v =>
            { v with resetCode := some (code, codeExpiry) }
          sent := some (u.email, code) }
      else { response := forgotResponse, state := st, sent := none }
  | none => { response := forgotResponse, state := st, sent := none }

/-- A concrete verified user record, for witnesses. -/
def demoUser : User :=
  { name := "Ann", email := "ann@x.com",
    passwordHash := ⟨12, 1, mixDigest 1 "Secret123!"⟩,
    verified := true, verificationCode := none, resetCode := none }

/-- A concrete store holding exactly the demo user. -/
def demoState : AuthState := ⟨[demoUser]⟩

/-- The idiom `Number(x) || d` yields the default when the variable is
unset, non-numeric, or converts to `0`. -/
theorem numOr_default (o : Option String) (d : Rat)
    (h : o = none ∨ ∃ s, o = some s ∧
      (stringToNumber s = .nan ∨ stringToNumber s = .num 0)) :
    numOr o d = d := by
  rcases h with h | ⟨s, rfl, h | h⟩ <;> simp [numOr, jsNumber, h]

/-- The idiom `Number(x) || d` yields the converted value when it is a
nonzero number. -/
theorem numOr_val (o : Option String) (d : Rat) (s : String) (v : Rat)
    (ho : o = some s) (hv : stringToNumber s = .num v) (hz : v ≠ 0) :
    numOr o d = v := by
  subst ho; simp [numOr, jsNumber, hv, hz]

/-- The idiom `x || d` on strings yields the default when the variable is
unset or empty. -/
theorem strOr_default (o : Option String) (d : String)
    (h : o = none ∨ o = some "") : strOr o d = d := by
  rcases h with h | h <;> simp [strOr, h]

/-- The idiom `x || d` on strings yields the set value when it is
non-empty. -/
theorem strOr_val (o : Option String) (d s : String)
    (ho : o = some s) (hs : s ≠ "") : strOr o d = s := by
  subst ho; simp [strOr, hs]

/-- A decimal digit is not one of the whitespace characters. -/
theorem isWs_eq_false_of_isDigit (c : Char) (h : c.isDigit = true) :
    isWs c = false := by
  simp only [isWs, decide_eq_false_iff_not]
  rintro (rfl | rfl | rfl | rfl) <;> exact absurd h (by decide)

/-- Dropping a while-prefix from a list none of whose elements satisfies
the predicate leaves it unchanged. -/
theorem dropWhile_eq_self_of_all (p : Char → Bool) (l : List Char)
    (h : ∀ c ∈ l, p c = false) : l.dropWhile p = l := by
  cases l with
  | nil => rfl
  | cons a t => simp [List.dropWhile_cons, h a (List.mem_cons_self a t)]

/-- Trimming a list with no whitespace characters leaves it unchanged. -/
theorem trimChars_eq_self (cs : List Char)
    (h : ∀ c ∈ cs, isWs c = false) : trimChars cs = cs := by
  unfold trimChars
  rw [dropWhile_eq_self_of_all _ _ h,
    dropWhile_eq_self_of_all _ _ (fun c hc => h c (List.mem_reverse.mp hc)),
    List.reverse_reverse]

/-- Parsing a non-empty all-digit list gives its decimal value. -/
theorem parseUnsigned_digits (l : List Char)
    (hd : allDigits l = true) (hne : l ≠ []) :
    parseUnsigned l = some (natOfDigits l : Rat) := by
  have hnd : ∀ c ∈ l, ¬((c == '.') = true) := by
    intro c hc hdot
    have hcd := (List.all_eq_true.mp hd) c hc
    rw [eq_of_beq hdot] at hcd
    exact absurd hcd (by decide)
  unfold parseUnsigned List.splitOn
  rw [List.splitOnP_eq_single _ _ hnd]
  simp [hd, hne]

/-- On the `smallIntLit` fragment the modelled conversion yields exactly
the literal's integer value (as `Number(...)` does). -/
theorem stringToNumber_smallIntLit (s : String) (h : smallIntLit s = true) :
    stringToNumber s = .num ((smallIntVal s : Int) : Rat) := by
  cases hsd : s.data with
  | nil => simp [smallIntLit, hsd] at h
  | cons c cs =>
      simp only [smallIntLit, hsd] at h
      by_cases hc : c = '-'
      · subst hc
        simp only [if_pos, Bool.and_eq_true, Bool.not_eq_true',
          decide_eq_true_eq] at h
        obtain ⟨⟨hds, hne0⟩, -⟩ := h
        have hne : cs ≠ [] := by
          intro heq
          rw [heq] at hne0
          exact absurd hne0 (by decide)
        have hval : ∀ x ∈ ('-' :: cs), isWs x = false := by
          intro x hx
          rcases List.mem_cons.mp hx with rfl | hx
          · decide
          · exact isWs_eq_false_of_isDigit x ((List.all_eq_true.mp hds) x hx)
        simp only [stringToNumber, smallIntVal, hsd,
          trimChars_eq_self _ hval]
        rw [if_neg (by decide : ¬ ('-' : Char) = '+'),
          parseUnsigned_digits cs hds hne]
        norm_num
      · rw [if_neg hc] at h
        simp only [Bool.and_eq_true, decide_eq_true_eq] at h
        obtain ⟨hds, -⟩ := h
        have hcd : c.isDigit = true :=
          (List.all_eq_true.mp hds) c (List.mem_cons_self c cs)
        have hval : ∀ x ∈ c :: cs, isWs x = false := fun x hx =>
          isWs_eq_false_of_isDigit x ((List.all_eq_true.mp hds) x hx)
        have hplus : c ≠ '+' := by rintro rfl; exact absurd hcd (by decide)
        simp only [stringToNumber, smallIntVal, hsd,
          trimChars_eq_self _ hval,
          parseUnsigned_digits (c :: cs) hds (by simp), if_neg hplus,
          if_neg hc]
        norm_num

/-- The idiom `Number(x) || d` yields the default when the variable holds
a zero-valued literal of the exact fragment (such as "0" or "00"). -/
theorem numOr_zero_lit (o : Option String) (d : Rat) (s : String)
    (ho : o = some s) (hl : smallIntLit s = true) (hz : smallIntVal s = 0) :
    numOr o d = d := by
  refine numOr_default o d (Or.inr ⟨s, ho, Or.inr ?_⟩)
  rw [stringToNumber_smallIntLit s hl, hz]
  norm_num

/-- The idiom `Number(x) || d` yields the literal's value when the
variable holds a nonzero literal of the exact fragment. -/
theorem numOr_lit_val (o : Option String) (d : Rat) (s : String) (v : Rat)
    (ho : o = some s) (hl : smallIntLit s = true)
    (hv : ((smallIntVal s : Int) : Rat) = v) (hz : v ≠ 0) :
    numOr o d = v :=
  numOr_val o d s v ho (by rw [stringToNumber_smallIntLit s hl, hv]) hz

/-- Claim C1, counterexample: in an environment that assigns the same
value to JWT_ACCESS_TOKEN and JWT_REFRESH_TOKEN, the two configured
signing secrets are equal, so they are not distinct in every
environment. -/
theorem C1_counterexample :
    (mkConfig (envTwo "JWT_ACCESS_TOKEN" "shared-secret"
      "JWT_REFRESH_TOKEN" "shared-secret")).JWT_ACCESS_TOKEN
      = (mkConfig (envTwo "JWT_ACCESS_TOKEN" "shared-secret"
        "JWT_REFRESH_TOKEN" "shared-secret")).JWT_REFRESH_TOKEN ∧
    (mkConfig (envTwo "JWT_ACCESS_TOKEN" "shared-secret"
      "JWT_REFRESH_TOKEN" "shared-secret")).JWT_ACCESS_TOKEN
      = some "shared-secret" := by
  decide

/-- Claim C1 (amended): the two signing secrets are read from distinct
environment variables, so they are distinct in every environment that
assigns the two variables distinct values; nothing in the code enforces
distinctness beyond that. -/
theorem C1_secrets_from_distinct_vars (env : Env)
    (h : env "JWT_ACCESS_TOKEN" ≠ env "JWT_REFRESH_TOKEN") :
    (mkConfig env).JWT_ACCESS_TOKEN ≠ (mkConfig env).JWT_REFRESH_TOKEN := by
  simpa [mkConfig] using h

/-- Claim C1 witness: concrete environment with distinct secrets. -/
theorem C1_witness :
    (mkConfig (envTwo "JWT_ACCESS_TOKEN" "access-secret"
      "JWT_REFRESH_TOKEN" "refresh-secret")).JWT_ACCESS_TOKEN
      ≠ (mkConfig (envTwo "JWT_ACCESS_TOKEN" "access-secret"
        "JWT_REFRESH_TOKEN" "refresh-secret")).JWT_REFRESH_TOKEN :=
  C1_secrets_from_distinct_vars
    (envTwo "JWT_ACCESS_TOKEN" "access-secret"
      "JWT_REFRESH_TOKEN" "refresh-secret") (by decide)

/-- Claim C2, counterexample: with JWT_ACCESS_EXPIRY set to the empty
string the variable is set, yet the configured expiry is the default
"15m", not the environment value "". -/
theorem C2_counterexample :
    (envOf "JWT_ACCESS_EXPIRY" "") "JWT_ACCESS_EXPIRY" = some "" ∧
    (mkConfig (envOf "JWT_ACCESS_EXPIRY" "")).JWT_ACCESS_EXPIRY = "15m" ∧
    (mkConfig (envOf "JWT_ACCESS_EXPIRY" "")).JWT_ACCESS_EXPIRY ≠ "" := by
  decide

/-- Claim C2 (amended): when JWT_ACCESS_EXPIRY and JWT_REFRESH_EXPIRY are
set to non-empty strings the configured expiries equal those strings, and
when they are unset or set to the empty string the configured expiries
are the defaults "15m" and "7d". -/
theorem C2_expiry_defaults (env₁ env₂ : Env) (s t : String)
    (hs : s ≠ "") (ht : t ≠ "")
    (h₁a : env₁ "JWT_ACCESS_EXPIRY" = some s)
    (h₁r : env₁ "JWT_REFRESH_EXPIRY" = some t)
    (h₂a : env₂ "JWT_ACCESS_EXPIRY" = none ∨ env₂ "JWT_ACCESS_EXPIRY" = some "")
    (h₂r : env₂ "JWT_REFRESH_EXPIRY" = none ∨ env₂ "JWT_REFRESH_EXPIRY" = some "") :
    (mkConfig env₁).JWT_ACCESS_EXPIRY = s ∧
    (mkConfig env₁).JWT_REFRESH_EXPIRY = t ∧
    (mkConfig env₂).JWT_ACCESS_EXPIRY = "15m" ∧
    (mkConfig env₂).JWT_REFRESH_EXPIRY = "7d" :=
  ⟨strOr_val _ _ s h₁a hs, strOr_val _ _ t h₁r ht,
   strOr_default _ _ h₂a, strOr_default _ _ h₂r⟩

/-- Claim C2 witness: concrete environments, one with both expiries set
to non-empty values and one with both unset. -/
theorem C2_witness :
    (mkConfig (envTwo "JWT_ACCESS_EXPIRY" "30m"
      "JWT_REFRESH_EXPIRY" "14d")).JWT_ACCESS_EXPIRY = "30m" ∧
    (mkConfig (envTwo "JWT_ACCESS_EXPIRY" "30m"
      "JWT_REFRESH_EXPIRY" "14d")).JWT_REFRESH_EXPIRY = "14d" ∧
    (mkConfig emptyEnv).JWT_ACCESS_EXPIRY = "15m" ∧
    (mkConfig emptyEnv).JWT_REFRESH_EXPIRY = "7d" :=
  C2_expiry_defaults
    (envTwo "JWT_ACCESS_EXPIRY" "30m" "JWT_REFRESH_EXPIRY" "14d")
    emptyEnv "30m" "14d" (by decide) (by decide) (by decide) (by decide)
    (Or.inl rfl) (Or.inl rfl)

/-- Claim C3, counterexample: with BCRYPT_SALT_ROUND set to "4" the
configured cost factor is 4, which is below 10, so the cost factor is not
at least 10 in every environment. -/
theorem C3_counterexample :
    (mkConfig (envOf "BCRYPT_SALT_ROUND" "4")).BCRYPT_SALT_ROUND = 4 ∧
    ¬ (10 ≤ (mkConfig (envOf "BCRYPT_SALT_ROUND" "4")).BCRYPT_SALT_ROUND) := by
  decide

/-- Claim C3 (amended): the cost factor is configurable through
BCRYPT_SALT_ROUND and equals 12 when the variable is unset; a plain
optionally-signed decimal integer value of at most fifteen digits — a
fragment on which ECMAScript Number conversion is exact — is accepted
unchanged when nonzero, so no lower bound of 10 rounds is enforced. -/
theorem C3_salt_round_configurable (env₁ env₂ : Env) (s : String) (v : Rat)
    (h₁ : env₁ "BCRYPT_SALT_ROUND" = none)
    (h₂ : env₂ "BCRYPT_SALT_ROUND" = some s)
    (hl : smallIntLit s = true)
    (hv : ((smallIntVal s : Int) : Rat) = v) (hz : v ≠ 0) :
    (mkConfig env₁).BCRYPT_SALT_ROUND = 12 ∧
    (mkConfig env₂).BCRYPT_SALT_ROUND = v :=
  ⟨numOr_default _ _ (Or.inl h₁), numOr_lit_val _ _ s v h₂ hl hv hz⟩

/-- Claim C3 witness: unset gives 12; the in-fragment value "4" (below
the claimed floor of 10) is accepted unchanged. -/
theorem C3_witness :
    (mkConfig emptyEnv).BCRYPT_SALT_ROUND = 12 ∧
    (mkConfig (envOf "BCRYPT_SALT_ROUND" "4")).BCRYPT_SALT_ROUND = 4 :=
  C3_salt_round_configurable emptyEnv (envOf "BCRYPT_SALT_ROUND" "4") "4" 4
    rfl (by decide) (by decide) (by decide) (by decide)

/-- Claim C8: constructing the Config value is a pure function of the
process environment — any two environments that agree on the variables
the configuration reads yield identical Config values, so no hidden state
influences the construction. -/
theorem C8_config_pure (env₁ env₂ : Env)
    (h : ∀ k ∈ configKeys, env₁ k = env₂ k) :
    mkConfig env₁ = mkConfig env₂ := by
  have h₁ := h "PORT" (by decide)
  have h₂ := h "NODE_ENV" (by decide)
  have h₃ := h "MONGO_URI" (by decide)
  have h₄ := h "JWT_ACCESS_TOKEN" (by decide)
  have h₅ := h "JWT_REFRESH_TOKEN" (by decide)
  have h₆ := h "JWT_ACCESS_EXPIRY" (by decide)
  have h₇ := h "JWT_REFRESH_EXPIRY" (by decide)
  have h₈ := h "EMAIL_HOST" (by decide)
  have h₉ := h "EMAIL_PORT" (by decide)
  have h₁₀ := h "EMAIL_USER" (by decide)
  have h₁₁ := h "EMAIL_PASS" (by decide)
  have h₁₂ := h "CLIENT_URL" (by decide)
  have h₁₃ := h "BCRYPT_SALT_ROUND" (by decide)
  have h₁₄ := h "RATE_LIMIT_WINDOW_MS" (by decide)
  have h₁₅ := h "RATE_LIMIT_MAX_REQUESTS" (by decide)
  simp [mkConfig, h₁, h₂, h₃, h₄, h₅, h₆, h₇, h₈, h₉, h₁₀, h₁₁, h₁₂, h₁₃,
    h₁₄, h₁₅]

/-- Claim C8 witness: two identical concrete environments yield the same
Config value. -/
theorem C8_witness : mkConfig emptyEnv = mkConfig emptyEnv :=
  C8_config_pure emptyEnv emptyEnv (fun _ _ => rfl)

/-- Claim C9: when the required string variables are absent, Config
construction still succeeds (the construction is total) and each of the
six `as string` fields is simply the undefined value. -/
theorem C9_missing_string_vars (env : Env)
    (hm : env "MONGO_URI" = none) (ha : env "JWT_ACCESS_TOKEN" = none)
    (hr : env "JWT_REFRESH_TOKEN" = none) (hh : env "EMAIL_HOST" = none)
    (hu : env "EMAIL_USER" = none) (hp : env "EMAIL_PASS" = none) :
    (mkConfig env).MONGO_URI = none ∧
    (mkConfig env).JWT_ACCESS_TOKEN = none ∧
    (mkConfig env).JWT_REFRESH_TOKEN = none ∧
    (mkConfig env).EMAIL_HOST = none ∧
    (mkConfig env).EMAIL_USER = none ∧
    (mkConfig env).EMAIL_PASS = none := by
  simp [mkConfig, hm, ha, hr, hh, hu, hp]

/-- Claim C9 witness: the empty environment. -/
theorem C9_witness :
    (mkConfig emptyEnv).MONGO_URI = none ∧
    (mkConfig emptyEnv).JWT_ACCESS_TOKEN = none ∧
    (mkConfig emptyEnv).JWT_REFRESH_TOKEN = none ∧
    (mkConfig emptyEnv).EMAIL_HOST = none ∧
    (mkConfig emptyEnv).EMAIL_USER = none ∧
    (mkConfig emptyEnv).EMAIL_PASS = none :=
  C9_missing_string_vars emptyEnv rfl rfl rfl rfl rfl rfl

/-- Claim C10, counterexample: "00" is a numeric string different from
"0", it converts to the number 0, yet the configured value is the default
100 rather than the converted number — so a numeric string other than "0"
is not always taken unchanged. -/
theorem C10_counterexample :
    stringToNumber "00" = JsNum.num 0 ∧ "00" ≠ "0" ∧
    (mkConfig (envOf "RATE_LIMIT_MAX_REQUESTS" "00")).RATE_LIMIT_MAX_REQUESTS
      = 100 ∧ (100 : Rat) ≠ 0 := by
  decide

/-- Claim C10 (amended): each numeric field equals its built-in default
(3000, 587, 12, 900000, 100) when its variable is absent or holds a plain
decimal integer literal whose value is 0 (such as "0" or "00"), and
equals the literal's value unchanged — negative values included — when
its variable holds a nonzero plain optionally-signed decimal integer
literal of at most fifteen digits, the fragment on which ECMAScript
Number conversion is exact. -/
theorem C10_numeric_defaults (env₁ env₂ : Env)
    (h₁ : ∀ k ∈ numericKeys, env₁ k = none ∨ ∃ s, env₁ k = some s ∧
      smallIntLit s = true ∧ smallIntVal s = 0)
    (sP sE sB sW sM : String) (vP vE vB vW vM : Rat)
    (hP : env₂ "PORT" = some sP) (hPl : smallIntLit sP = true)
    (hPv : ((smallIntVal sP : Int) : Rat) = vP) (hPz : vP ≠ 0)
    (hE : env₂ "EMAIL_PORT" = some sE) (hEl : smallIntLit sE = true)
    (hEv : ((smallIntVal sE : Int) : Rat) = vE) (hEz : vE ≠ 0)
    (hB : env₂ "BCRYPT_SALT_ROUND" = some sB) (hBl : smallIntLit sB = true)
    (hBv : ((smallIntVal sB : Int) : Rat) = vB) (hBz : vB ≠ 0)
    (hW : env₂ "RATE_LIMIT_WINDOW_MS" = some sW)
    (hWl : smallIntLit sW = true)
    (hWv : ((smallIntVal sW : Int) : Rat) = vW) (hWz : vW ≠ 0)
    (hM : env₂ "RATE_LIMIT_MAX_REQUESTS" = some sM)
    (hMl : smallIntLit sM = true)
    (hMv : ((smallIntVal sM : Int) : Rat) = vM) (hMz : vM ≠ 0) :
    (mkConfig env₁).PORT = 3000 ∧
    (mkConfig env₁).EMAIL_PORT = 587 ∧
    (mkConfig env₁).BCRYPT_SALT_ROUND = 12 ∧
    (mkConfig env₁).RATE_LIMIT_WINDOW_MS = 900000 ∧
    (mkConfig env₁).RATE_LIMIT_MAX_REQUESTS = 100 ∧
    (mkConfig env₂).PORT = vP ∧
    (mkConfig env₂).EMAIL_PORT = vE ∧
    (mkConfig env₂).BCRYPT_SALT_ROUND = vB ∧
    (mkConfig env₂).RATE_LIMIT_WINDOW_MS = vW ∧
    (mkConfig env₂).RATE_LIMIT_MAX_REQUESTS = vM := by
  have hdflt : ∀ k ∈ numericKeys, ∀ d : Rat, numOr (env₁ k) d = d := by
    intro k hk d
    rcases h₁ k hk with hk0 | ⟨s, hks, hkl, hkz⟩
    · exact numOr_default _ _ (Or.inl hk0)
    · exact numOr_zero_lit _ _ s hks hkl hkz
  refine ⟨?_, ?_, ?_, ?_, ?_, ?_, ?_, ?_, ?_, ?_⟩
  · exact hdflt "PORT" (by decide) 3000
  · exact hdflt "EMAIL_PORT" (by decide) 587
  · exact hdflt "BCRYPT_SALT_ROUND" (by decide) 12
  · show numOr (env₁ "RATE_LIMIT_WINDOW_MS") (15 * 60 * 1000) = 900000
    rw [hdflt "RATE_LIMIT_WINDOW_MS" (by decide) (15 * 60 * 1000)]
    norm_num
  · exact hdflt "RATE_LIMIT_MAX_REQUESTS" (by decide) 100
  · exact numOr_lit_val _ _ sP vP hP hPl hPv hPz
  · exact numOr_lit_val _ _ sE vE hE hEl hEv hEz
  · exact numOr_lit_val _ _ sB vB hB hBl hBv hBz
  · exact numOr_lit_val _ _ sW vW hW hWl hWv hWz
  · exact numOr_lit_val _ _ sM vM hM hMl hMv hMz

/-- Claim C10 witness: the empty environment gives every default, a
concrete environment setting "0" and "00" literals gives the defaults,
and a concrete environment with nonzero integer literals (a negative one
included) gives the literals' values unchanged. -/
theorem C10_witness :
    (mkConfig (envTwo "PORT" "0" "EMAIL_PORT" "00")).PORT = 3000 ∧
    (mkConfig (envTwo "PORT" "0" "EMAIL_PORT" "00")).EMAIL_PORT = 587 ∧
    (mkConfig (envTwo "PORT" "0" "EMAIL_PORT" "00")).BCRYPT_SALT_ROUND
      = 12 ∧
    (mkConfig (envTwo "PORT" "0" "EMAIL_PORT" "00")).RATE_LIMIT_WINDOW_MS
      = 900000 ∧
    (mkConfig
      (envTwo "PORT" "0" "EMAIL_PORT" "00")).RATE_LIMIT_MAX_REQUESTS
      = 100 ∧
    (mkConfig numericEnv).PORT = 8080 ∧
    (mkConfig numericEnv).EMAIL_PORT = 2525 ∧
    (mkConfig numericEnv).BCRYPT_SALT_ROUND = 10 ∧
    (mkConfig numericEnv).RATE_LIMIT_WINDOW_MS = -60000 ∧
    (mkConfig numericEnv).RATE_LIMIT_MAX_REQUESTS = 5 :=
  C10_numeric_defaults (envTwo "PORT" "0" "EMAIL_PORT" "00") numericEnv
    (by intro k hk
        fin_cases hk
        · exact Or.inr ⟨"0", rfl, by decide, by decide⟩
        · exact Or.inr ⟨"00", rfl, by decide, by decide⟩
        · exact Or.inl rfl
        · exact Or.inl rfl
        · exact Or.inl rfl)
    "8080" "2525" "10" "-60000" "5" 8080 2525 10 (-60000) 5
    rfl (by decide) (by decide) (by decide)
    rfl (by decide) (by decide) (by decide)
    rfl (by decide) (by decide) (by decide)
    rfl (by decide) (by decide) (by decide)
    rfl (by decide) (by decide) (by decide)

/-- Claim C4: for a valid (name, email, password) with the email not yet
registered, register followed by verifyEmail with the issued code before
its expiry yields a record in the Verified state, and a subsequent login
with that email and password succeeds with an access+refresh token
pair. -/
theorem C4_register_verify_login (st : AuthState)
    (name email password : String) (cost salt : Nat)
    (code : String) (codeExpiry now now₂ : Nat)
    (accessSecret refreshSecret : String) (accessLife refreshLife : Nat)
    (hpw : password ≠ "") (hfree : findByEmail st email = none)
    (hexp : now ≤ codeExpiry) :
    ∃ st₁ st₂ pair,
      register st name email password cost salt code codeExpiry = .ok st₁ ∧
      verifyEmail st₁ email code now = .ok st₂ ∧
      (∃ u, findByEmail st₂ email = some u ∧ u.verified = true) ∧
      login st₂ email password accessSecret refreshSecret now₂
        accessLife refreshLife = .ok pair := by
  have hreg : register st name email password cost salt code codeExpiry =
      .ok ⟨{ name := name, email := normEmail email,
             passwordHash := ⟨cost, salt, mixDigest salt password⟩,
             verified := false, verificationCode := some (code, codeExpiry),
             resetCode := none } :: st.users⟩ := by
    simp [register, hfree, hashPassword, hpw]
  have hfind₁ : findByEmail
      ⟨{ name := name, email := normEmail email,
         passwordHash := ⟨cost, salt, mixDigest salt password⟩,
         verified := false, verificationCode := some (code, codeExpiry),
         resetCode := none } :: st.users⟩ email =
      some { name := name, email := normEmail email,
             passwordHash := ⟨cost, salt, mixDigest salt password⟩,
             verified := false, verificationCode := some (code, codeExpiry),
             resetCode := none } := by
    simp [findByEmail]
  have hver : verifyEmail
      ⟨{ name := name, email := normEmail email,
         passwordHash := ⟨cost, salt, mixDigest salt password⟩,
         verified := false, verificationCode := some (code, codeExpiry),
         resetCode := none } :: st.users⟩ email code now =
      .ok (updateByEmail
        ⟨{ name := name, email := normEmail email,
           passwordHash := ⟨cost, salt, mixDigest salt password⟩,
           verified := false, verificationCode := some (code, codeExpiry),
           resetCode := none } :: st.users⟩ email fun v =>
          { v with verified := true, verificationCode := none }) := by
    simp [verifyEmail, hfind₁, checkCode, Nat.not_lt.mpr hexp]
  have hfind₂ : findByEmail (updateByEmail
      ⟨{ name := name, email := normEmail email,
         passwordHash := ⟨cost, salt, mixDigest salt password⟩,
         verified := false, verificationCode := some (code, codeExpiry),
         resetCode := none } :: st.users⟩ email fun v =>
        { v with verified := true, verificationCode := none }) email =
      some { name := name, email := normEmail email,
             passwordHash := ⟨cost, salt, mixDigest salt password⟩,
             verified := true, verificationCode := none,
             resetCode := none } := by
    simp [findByEmail, updateByEmail]
  have hlog : login (updateByEmail
      ⟨{ name := name, email := normEmail email,
         passwordHash := ⟨cost, salt, mixDigest salt password⟩,
         verified := false, verificationCode := some (code, codeExpiry),
         resetCode := none } :: st.users⟩ email fun v =>
        { v with verified := true, verificationCode := none }) email
        password accessSecret refreshSecret now₂ accessLife refreshLife =
      .ok (issueToken accessSecret (normEmail email) now₂ accessLife,
           issueToken refreshSecret (normEmail email) now₂ refreshLife) := by
    simp [login, hfind₂, verifyPassword]
  exact ⟨_, _, _, hreg, hver,
    ⟨{ name := name, email := normEmail email,
       passwordHash := ⟨cost, salt, mixDigest salt password⟩,
       verified := true, verificationCode := none, resetCode := none },
     hfind₂, rfl⟩, hlog⟩

/-- Claim C4 witness: the §8 scenario on an empty store — register Ann,
verify with the issued code before expiry, then log in. -/
theorem C4_witness :
    ∃ st₁ st₂ pair,
      register ⟨[]⟩ "Ann" "ann@x.com" "Secret123!" 12 1 "123456" 100 =
        .ok st₁ ∧
      verifyEmail st₁ "ann@x.com" "123456" 50 = .ok st₂ ∧
      (∃ u, findByEmail st₂ "ann@x.com" = some u ∧ u.verified = true) ∧
      login st₂ "ann@x.com" "Secret123!" "access-secret" "refresh-secret"
        60 900 604800 = .ok pair :=
  C4_register_verify_login ⟨[]⟩ "Ann" "ann@x.com" "Secret123!" 12 1
    "123456" 100 50 60 "access-secret" "refresh-secret" 900 604800
    (by decide) (by decide) (by decide)

/-- Claim C5: checking a code at any time strictly after the stored
expiry fails CodeExpired, for every supplied code — the correct one
included. -/
theorem C5_check_after_expiry (storedCode : String) (storedExpiry : Nat)
    (suppliedCode : String) (now : Nat) (h : storedExpiry < now) :
    checkCode storedCode storedExpiry suppliedCode now = .expired := by
  simp [checkCode, h]

/-- Claim C5 witness: the correct code value, one tick after expiry. -/
theorem C5_witness : checkCode "123456" 100 "123456" 101 = .expired :=
  C5_check_after_expiry "123456" 100 "123456" 101 (by decide)

/-- Claim C6: hashing the same non-empty password under two different
per-record salts yields two different hashes, and each verifies against
the original plaintext. -/
theorem C6_hash_twice_differs (password : String) (cost salt₁ salt₂ : Nat)
    (hpw : password ≠ "") (hsalt : salt₁ ≠ salt₂) :
    ∃ h₁ h₂ : Hash,
      hashPassword cost salt₁ password = some h₁ ∧
      hashPassword cost salt₂ password = some h₂ ∧
      h₁ ≠ h₂ ∧
      verifyPassword password h₁ = true ∧
      verifyPassword password h₂ = true := by
  refine ⟨⟨cost, salt₁, mixDigest salt₁ password⟩,
    ⟨cost, salt₂, mixDigest salt₂ password⟩, ?_, ?_, ?_, ?_, ?_⟩
  · simp [hashPassword, hpw]
  · simp [hashPassword, hpw]
  · intro hEq
    exact hsalt (congrArg Hash.salt hEq)
  · simp [verifyPassword]
  · simp [verifyPassword]

/-- Claim C6 witness: the scenario password hashed under salts 1 and 2. -/
theorem C6_witness :
    ∃ h₁ h₂ : Hash,
      hashPassword 12 1 "Secret123!" = some h₁ ∧
      hashPassword 12 2 "Secret123!" = some h₂ ∧
      h₁ ≠ h₂ ∧
      verifyPassword "Secret123!" h₁ = true ∧
      verifyPassword "Secret123!" h₂ = true :=
  C6_hash_twice_differs "Secret123!" 12 1 2 (by decide) (by decide)

/-- Claim C7: forgotPassword returns the identical success-shaped
response on a registered and on an unregistered email, so the caller
cannot distinguish them; a reset code is sent for the registered email
exactly when that account exists and is verified, and never for the
unregistered one. -/
theorem C7_forgot_no_enumeration (st : AuthState) (e₁ e₂ code : String)
    (codeExpiry : Nat) (h₁ : (findByEmail st e₁).isSome = true)
    (h₂ : findByEmail st e₂ = none) :
    (forgotPassword st e₁ code codeExpiry).response =
      (forgotPassword st e₂ code codeExpiry).response ∧
    ((forgotPassword st e₁ code codeExpiry).sent ≠ none ↔
      ∃ u, findByEmail st e₁ = some u ∧ u.verified = true) ∧
    (forgotPassword st e₂ code codeExpiry).sent = none := by
  have hresp : ∀ e : String,
      (forgotPassword st e code codeExpiry).response = forgotResponse := by
    intro e
    cases hfe : findByEmail st e with
    | none => simp [forgotPassword, hfe]
    | some u => cases hv : u.verified <;> simp [forgotPassword, hfe, hv]
  refine ⟨?_, ?_, ?_⟩
  · rw [hresp e₁, hresp e₂]
  · cases hfe : findByEmail st e₁ with
    | none => simp [forgotPassword, hfe]
    | some u => cases hv : u.verified <;> simp [forgotPassword, hfe, hv]
  · simp [forgotPassword, h₂]

/-- Claim C7 witness: the store holding only the verified demo user,
probed with her email and with an unregistered one. -/
theorem C7_witness :
    (forgotPassword demoState "ann@x.com" "654321" 100).response =
      (forgotPassword demoState "zoe@x.com" "654321" 100).response ∧
    ((forgotPassword demoState "ann@x.com" "654321" 100).sent ≠ none ↔
      ∃ u, findByEmail demoState "ann@x.com" = some u ∧
        u.verified = true) ∧
    (forgotPassword demoState "zoe@x.com" "654321" 100).sent = none :=
  C7_forgot_no_enumeration demoState "ann@x.com" "zoe@x.com" "654321" 100
    (by decide) (by decide)
